import Mathlib

/-!
# Verification of the Document_base_chatbot frontend and retrieval core

Shallow embedding of the repository's JavaScript frontend
(`frontend/src/services/api.js`, `frontend/src/pages/UploadPage.js`,
`frontend/src/pages/AskPage.js`, the `DashboardPage` component, and the
minimal `AskPage`/`UploadPage` variants), together with a model of the
backend vector-index query described by the specification.

JavaScript values that flow through string-keyed objects are modelled by
`JVal`; `none : Option JVal` plays the role of `undefined`.
-/

namespace Chatbot

/-- A JSON-like JavaScript value: null, boolean, number (modelled as ℚ;
no float rounding is exercised by the code under verification), string,
array, or string-keyed object. -/
inductive JVal where
  | jnull : JVal
  | jbool : Bool → JVal
  | jnum : ℚ → JVal
  | jstr : String → JVal
  | jarr : List JVal → JVal
  | jobj : List (String × JVal) → JVal

open JVal

/-- Property access `o.k` on a JavaScript value: a lookup when `o` is an
object, `undefined` (i.e. `none`) otherwise. -/
def getField (v : JVal) (k : String) : Option JVal :=
  match v with
  | jobj fields => fields.lookup k
  | _ => none

/-- Optional-chaining access `o?.k`: `undefined` when the base is already
`undefined`/`null`, ordinary property access otherwise. -/
def getFieldOpt (v : Option JVal) (k : String) : Option JVal :=
  match v with
  | some (jobj fields) => fields.lookup k
  | _ => none

/-- JavaScript truthiness of a value (`undefined`, `null`, `false`, `0`
and `""` are falsy; arrays and objects are truthy). -/
def truthy : Option JVal → Bool
  | none => false
  | some jnull => false
  | some (jbool b) => b
  | some (jnum q) => q != 0
  | some (jstr s) => s != ""
  | some (jarr _) => true
  | some (jobj _) => true

/-- The JavaScript `a || b` operator on values: `a` when truthy, else `b`. -/
def jsOr (a : Option JVal) (b : JVal) : JVal :=
  match a with
  | some v => if truthy (some v) then v else b
  | none => b

/-- The JavaScript `a || b` operator specialised to numbers, as used for
the defaulting of `max_chunks` and `temperature` in `api.js`
(`options.maxChunks || 5` and similar): `0` and an absent value are falsy,
so they yield the default. -/
def jsOrQ (a : Option ℚ) (d : ℚ) : ℚ :=
  match a with
  | some x => if x = 0 then d else x
  | none => d

/-- The JavaScript `a || b` operator specialised to strings, as used for
error-detail fallbacks (`error.response?.data?.detail || '...'`). -/
def jsOrStr (a : Option String) (d : String) : String :=
  match a with
  | some s => if s = "" then d else s
  | none => d

/-! ## `frontend/src/services/api.js` -/

/-- The `options` argument of `queryAPI.askQuestion` / `queryAPI.searchDocuments`
in `api.js`: each property may be absent (`none` = `undefined`). Numeric
options are modelled as ℚ. -/
structure QueryOptions where
  documentIds : Option JVal
  maxChunks : Option ℚ
  temperature : Option ℚ

/-- The request body built by `queryAPI.askQuestion` (`api.js` lines
112–122): `{question, document_ids: options.documentIds, max_chunks:
options.maxChunks || 5, temperature: options.temperature || 0.7}`.
The payload is the literal list of (property name, value) pairs;
`none` as a value is JavaScript `undefined`. -/
def askQuestionPayload (question : String) (options : QueryOptions) :
    List (String × Option JVal) :=
  [("question", some (jstr question)),
   ("document_ids", options.documentIds),
   ("max_chunks", some (jnum (jsOrQ options.maxChunks 5))),
   ("temperature", some (jnum (jsOrQ options.temperature (7/10))))]

/-- The request body built by `queryAPI.searchDocuments` (`api.js` lines
124–133): `{question: query, document_ids: options.documentIds,
max_chunks: options.maxChunks || 10}`. -/
def searchDocumentsPayload (query : String) (options : QueryOptions) :
    List (String × Option JVal) :=
  [("question", some (jstr query)),
   ("document_ids", options.documentIds),
   ("max_chunks", some (jnum (jsOrQ options.maxChunks 10)))]

/-- The request interceptor of `api.js` (lines 19–30): reads `authToken`
from localStorage and, when present, sets the `Authorization` header to
`Bearer <token>`; otherwise the headers are left untouched. Headers are a
(name, value) association list. -/
def requestInterceptor (storedToken : Option String)
    (headers : List (String × String)) : List (String × String) :=
  match storedToken with
  | some token => ("Authorization", "Bearer " ++ token) :: headers
  | none => headers

/-- The persistent browser state the response interceptor touches:
the two localStorage keys and the window location. -/
structure BrowserState where
  authToken : Option String
  userData : Option String
  location : String
deriving DecidableEq, Repr

/-- The response interceptor of `api.js` (lines 33–43): on an error whose
response has status 401, remove `authToken` and `userData` from
localStorage and navigate to `/login`; in every case the error is
rejected onward (`Bool` result = the error is propagated to the caller).
`status = none` models an error without a response (network failure),
matching `error.response?.status`. -/
def responseInterceptor (status : Option Nat) (st : BrowserState) :
    BrowserState × Bool :=
  if status = some 401 then
    ({ authToken := none, userData := none, location := "/login" }, true)
  else
    (st, true)

/-! ## `frontend/src/pages/UploadPage.js` -/

/-- The fields of a browser `File` object that `handleFileUpload` reads. -/
structure JsFile where
  ftype : String
  size : Nat
deriving DecidableEq, Repr

/-- Outcome of the `handleFileUpload` validation in `UploadPage.js`. -/
inductive UploadAction where
  /-- `if (!file) return;` — nothing happens. -/
  | noop : UploadAction
  /-- Validation failed: `setError(msg)` and no upload request. -/
  | rejected : String → UploadAction
  /-- Validation passed: `filesAPI.uploadPDF(file, ...)` is issued. -/
  | upload : JsFile → UploadAction
deriving DecidableEq, Repr

/-- `handleFileUpload` in `UploadPage.js` (lines 36–77), up to the point
where the upload request is or is not issued: reject non-PDF content
types, reject sizes over 50 MB (50 * 1024 * 1024 bytes), otherwise call
`filesAPI.uploadPDF`. -/
def handleFileUpload (file : Option JsFile) : UploadAction :=
  match file with
  | none => .noop
  | some f =>
    if f.ftype ≠ "application/pdf" then
      .rejected "Please select a PDF file"
    else if f.size > 50 * 1024 * 1024 then
      .rejected "File size must be less than 50MB"
    else
      .upload f

/-- JavaScript `String.prototype.trim`: strip leading and trailing
whitespace. Defined by structural recursion over the character list so
that concrete calls evaluate. -/
def jsTrim (s : String) : String :=
  ⟨((s.data.dropWhile Char.isWhitespace).reverse.dropWhile
      Char.isWhitespace).reverse⟩

/-! ## `frontend/src/pages/AskPage.js` -/

/-- The `type` discriminator of a chat message in `AskPage.js`. -/
inductive MsgType where
  | system : MsgType
  | user : MsgType
  | assistant : MsgType
  | error : MsgType
deriving DecidableEq, Repr

/-- A chat message as built in `AskPage.js`: `type`, `content`, and the
optional `sources` / `modelInfo` / `processingTime` / `isThinking`
properties (absent = `none` / `false`). Timestamps are not modelled. -/
structure Message where
  mtype : MsgType
  content : Option JVal
  sources : Option JVal
  modelInfo : Option JVal
  processingTime : Option JVal
  isThinking : Bool

/-- The user message `handleSubmit` appends (lines 50–55). -/
def mkUserMessage (q : String) : Message :=
  { mtype := .user, content := some (jstr q), sources := none,
    modelInfo := none, processingTime := none, isThinking := false }

/-- The transient thinking message (lines 61–67): note its `type` is
`'assistant'` and `isThinking` is `true`. -/
def thinkingMessage : Message :=
  { mtype := .assistant,
    content := some (jstr "🤔 Searching through your documents..."),
    sources := none, modelInfo := none, processingTime := none,
    isThinking := true }

/-- The assistant message built from a successful ask response (lines
77–84): `content: response.answer, sources: response.sources, modelInfo:
response.model_info, processingTime: response.processing_time_ms`. -/
def mkAssistantMessage (response : JVal) : Message :=
  { mtype := .assistant,
    content := getField response "answer",
    sources := getField response "sources",
    modelInfo := getField response "model_info",
    processingTime := getField response "processing_time_ms",
    isThinking := false }

/-- The error message built from a failed ask request (lines 95–99):
`content: error.response?.data?.detail || 'Sorry, I encountered an error
while processing your question.'`. -/
def mkErrorMessage (detail : Option String) : Message :=
  { mtype := .error,
    content := some (jstr (jsOrStr detail
      "Sorry, I encountered an error while processing your question.")),
    sources := none, modelInfo := none, processingTime := none,
    isThinking := false }

/-- The component state of `AskPage` that `handleSubmit` reads and writes. -/
structure AskState where
  messages : List Message
  currentQuestion : String
  loading : Bool
  error : String

/-- The result of the awaited `queryAPI.askQuestion` call: a response
value, or a failure carrying `error.response?.data?.detail` when one is
present. -/
inductive AskResult where
  | ok : JVal → AskResult
  | fail : Option String → AskResult

/-- `handleSubmit` in `AskPage.js` (lines 41–105). Returns the new state
and whether the ask request was issued. Guard: `if (!currentQuestion.trim()
|| loading) return;`. On either API outcome the thinking message is
filtered out (`prev.filter(msg => !msg.isThinking)`) and the assistant or
error message is appended; `loading` ends `false` and `currentQuestion`
was cleared. -/
def handleSubmit (s : AskState) (result : AskResult) : AskState × Bool :=
  if (jsTrim s.currentQuestion == "") || s.loading then (s, false)
  else
    let q := jsTrim s.currentQuestion
    let base := s.messages ++ [mkUserMessage q, thinkingMessage]
    match result with
    | .ok response =>
      ({ messages := (base.filter fun m => !m.isThinking) ++
           [mkAssistantMessage response],
         currentQuestion := "", loading := false, error := "" }, true)
    | .fail detail =>
      ({ messages := (base.filter fun m => !m.isThinking) ++
           [mkErrorMessage detail],
         currentQuestion := "", loading := false,
         error := jsOrStr detail "Failed to get answer" }, true)

/-! ## The minimal `AskPage` variant (`src/unnamed/part_001`) -/

/-- `handleAsk` in the minimal AskPage (part_001 lines 9–22): on success
set `answer` to `res.data.answer` and `references` to
`res.data.references || []`; on any error set `answer` to the string
`"Error getting answer."` and `references` to `[]`. The result pair is
(answer state, references state). -/
def handleAsk (result : AskResult) : Option JVal × JVal :=
  match result with
  | .ok response =>
    (getField response "answer", jsOr (getField response "references") (jarr []))
  | .fail _ => (some (jstr "Error getting answer."), jarr [])

/-! ## `DashboardPage` (second component in `pages/AskPage.js`) -/

/-- What the stats grid of `DashboardPage` displays (lines 392–474). -/
structure StatsView where
  totalDocuments : Option JVal
  storageUsedMB : Option JVal
  textChunks : Option JVal
  processed : JVal

/-- The stats grid of `DashboardPage`: `stats.total_documents`,
`stats.total_file_size_mb`, `stats.total_chunks`, and
`stats.documents_by_status?.completed || 0`. -/
def dashboardStatsView (stats : JVal) : StatsView :=
  { totalDocuments := getField stats "total_documents",
    storageUsedMB := getField stats "total_file_size_mb",
    textChunks := getField stats "total_chunks",
    processed := jsOr (getFieldOpt (getField stats "documents_by_status")
      "completed") (jnum 0) }

/-- The JavaScript comparison `x >= 0` as used on
`vector_store?.total_chunks` in `DashboardPage`. `undefined >= 0` is
`false` (NaN), `null` coerces to 0, booleans to 0/1 (so both compare
`true`). The dashboard's health payload carries a number here; coercion
of strings, arrays and objects is not modelled (mapped to `false`). -/
def jsGeZero : Option JVal → Bool
  | some (jnum q) => decide (0 ≤ q)
  | some jnull => true
  | some (jbool _) => true
  | _ => false

/-- What the System Status panel of `DashboardPage` displays
(lines 477–495): one green/red indicator per service. -/
structure HealthView where
  embeddingOk : Bool
  llmOk : Bool
  vectorOk : Bool

/-- The System Status panel: `healthStatus.embedding_service?.working`,
`healthStatus.llm_service?.available`, and
`healthStatus.vector_store?.total_chunks >= 0` decide the three
indicator colours. -/
def dashboardHealthView (healthStatus : JVal) : HealthView :=
  { embeddingOk := truthy (getFieldOpt
      (getField healthStatus "embedding_service") "working"),
    llmOk := truthy (getFieldOpt
      (getField healthStatus "llm_service") "available"),
    vectorOk := jsGeZero (getFieldOpt
      (getField healthStatus "vector_store") "total_chunks") }

/-! ## Vector index (backend `services/vector_store.py`, not in `src/`) -/

/-- A chunk record held by the vector index: identifier, parent document,
owner, and embedding vector. -/
structure IndexedChunk where
  chunk_id : Nat
  document_id : Nat
  owner_id : Nat
  vector : List ℚ
deriving DecidableEq, Repr

/-- Inner product of two embedding vectors; the similarity score of the
index's normalized-inner-product metric. -/
def dotScore (u v : List ℚ) : ℚ := (List.zipWith (· * ·) u v).sum

/-- Ranking relation of query results: higher similarity to the query
vector `v` first, ties broken by ascending `chunk_id`. -/
def rankRel (v : List ℚ) (a b : IndexedChunk) : Prop :=
  dotScore v b.vector < dotScore v a.vector ∨
    (dotScore v a.vector = dotScore v b.vector ∧ a.chunk_id ≤ b.chunk_id)

instance (v : List ℚ) : DecidableRel (rankRel v) := fun a b => by
  unfold rankRel; infer_instance

/-- The document ids of `ids` that actually belong to owner `A` in the
index, i.e. the result of validating document ownership. -/
def ownedDocIds (index : List IndexedChunk) (A : Nat) (ids : List Nat) :
    List Nat :=
  ids.filter fun d =>
    (index.filter fun c => c.owner_id == A).any fun c => c.document_id == d

/-- Modelled from the spec: the Vector Index `query` operation
(`backend/services/vector_store.py`, absent from `src/`), per §4.4 of the
specification: nearest-neighbor query scoped by owner (mandatory) and an
optional document-id set; document ownership is validated before the
document-id filter is applied; results ranked by similarity with ties
broken by ascending chunk id; at most `k` results. The spec's return is
the (chunk_id, score) projection of each pair; the full chunk record is
kept alongside the score so ownership can be stated. -/
def vectorIndexQuery (index : List IndexedChunk) (v : List ℚ) (A : Nat)
    (documentIds : Option (List Nat)) (k : Nat) : List (IndexedChunk × ℚ) :=
  let owned := index.filter fun c => c.owner_id == A
  let candidates :=
    match documentIds with
    | none => owned
    | some ids => owned.filter fun c =>
        (ownedDocIds index A ids).contains c.document_id
  ((candidates.insertionSort (rankRel v)).take k).map fun c =>
    (c, dotScore v c.vector)

/-! ## Concrete inputs used by witnesses and counterexamples -/

/-- A two-owner demo index: owner 1 holds chunks 1 and 3 in document 10;
owner 2 holds chunk 2 in document 20, whose vector has the highest
similarity to the demo query vector `[1, 0]`. -/
def demoIndex : List IndexedChunk :=
  [⟨1, 10, 1, [1, 0]⟩, ⟨2, 20, 2, [5, 0]⟩, ⟨3, 10, 1, [2, 0]⟩]

/-- Owner 1's best chunk for the demo query. -/
def demoChunk : IndexedChunk := ⟨3, 10, 1, [2, 0]⟩

/-- An idle `AskPage` state with a typed question. -/
def demoAskState : AskState :=
  { messages := [], currentQuestion := "What is the sprint goal?",
    loading := false, error := "" }

/-- An ask response carrying distinct `answer_text` and `answer` values. -/
def demoAskResponse : JVal :=
  jobj [("answer_text", jstr "the sprint goal is X"),
        ("answer", jstr "a different text"),
        ("sources", jarr []),
        ("model_info", jobj []),
        ("processing_time_ms", jnum 12)]

/-- A stats response carrying both the field names the claim expects
(`total_bytes`, `counts_by_status`) and the ones the code uses
(`total_file_size_mb`, `documents_by_status`), with distinct values. -/
def demoStats : JVal :=
  jobj [("total_documents", jnum 4),
        ("total_chunks", jnum 9),
        ("total_bytes", jnum 123456),
        ("counts_by_status", jobj [("completed", jnum 7)]),
        ("total_file_size_mb", jnum 2),
        ("documents_by_status", jobj [("completed", jnum 1)])]

/-- A health response in which the field names the claim expects
(`generation_service`, `vector_index`, `chunk_count`) all indicate a
reachable service, while the fields the code reads (`llm_service`,
`vector_store`) are absent. -/
def demoHealth : JVal :=
  jobj [("embedding_service", jobj [("working", jbool true)]),
        ("generation_service", jbool true),
        ("vector_index", jbool true),
        ("chunk_count", jnum 3)]

end Chatbot

namespace Chatbot

open JVal

/-! ## Theorems -/

/-- C1: For every query vector `v` and every owner `A`,
`query(v, owner_id=A)` returns only chunks whose owner_id equals `A`,
even when another owner's chunks have higher similarity and even when
document_ids are supplied in the request; moreover document ownership is
validated before the document_ids filter is applied (supplying foreign
document ids is the same as supplying only the validated, caller-owned
ones). -/
theorem vectorIndexQuery_owner_scoped :
    (∀ (index : List IndexedChunk) (v : List ℚ) (A : Nat)
        (documentIds : Option (List Nat)) (k : Nat) (c : IndexedChunk) (s : ℚ),
      (c, s) ∈ vectorIndexQuery index v A documentIds k → c.owner_id = A) ∧
    (∀ (index : List IndexedChunk) (v : List ℚ) (A : Nat)
        (ids : List Nat) (k : Nat),
      vectorIndexQuery index v A (some ids) k =
        vectorIndexQuery index v A (some (ownedDocIds index A ids)) k) := by
  constructor
  · intro index v A documentIds k c s h
    unfold vectorIndexQuery at h
    cases documentIds with
    | none =>
      simp only [List.mem_map] at h
      obtain ⟨c2, hc2, heq⟩ := h
      obtain rfl : c2 = c := congrArg Prod.fst heq
      have h1 := List.take_subset _ _ hc2
      rw [List.mem_insertionSort] at h1
      have h2 : (c2.owner_id == A) = true := (List.mem_filter.mp h1).2
      exact eq_of_beq h2
    | some ids =>
      simp only [List.mem_map] at h
      obtain ⟨c2, hc2, heq⟩ := h
      obtain rfl : c2 = c := congrArg Prod.fst heq
      have h1 := List.take_subset _ _ hc2
      rw [List.mem_insertionSort] at h1
      have h2 : (c2.owner_id == A) = true :=
        (List.mem_filter.mp (List.mem_of_mem_filter h1)).2
      exact eq_of_beq h2
  · intro index v A ids k
    have h : ownedDocIds index A (ownedDocIds index A ids) =
        ownedDocIds index A ids := by
      unfold ownedDocIds
      rw [List.filter_filter]
      simp
    unfold vectorIndexQuery
    dsimp only
    rw [h]

/-- Witness for C1: in the two-owner demo index, owner 2's chunk has
similarity 5 to the query, yet owner 1's query (with both owners'
document ids supplied) returns owner 1's chunk, and every such returned
chunk belongs to owner 1. -/
theorem vectorIndexQuery_owner_scoped_witness :
    (demoChunk, (2 : ℚ)) ∈ vectorIndexQuery demoIndex [1, 0] 1 (some [10, 20]) 5 ∧
    demoChunk.owner_id = 1 :=
  ⟨by norm_num [vectorIndexQuery, ownedDocIds, dotScore, rankRel,
      List.insertionSort, List.orderedInsert, demoIndex, demoChunk],
   vectorIndexQuery_owner_scoped.1 demoIndex [1, 0] 1 (some [10, 20]) 5
     demoChunk 2
     (by norm_num [vectorIndexQuery, ownedDocIds, dotScore, rankRel,
        List.insertionSort, List.orderedInsert, demoIndex, demoChunk])⟩

/-- C2: The ask and search request payloads consist of exactly the fields
question, document_ids, max_chunks and (for ask) temperature — in
particular no owner_id field — and the request interceptor attaches the
caller's identity exclusively as an `Authorization: Bearer <token>`
header from the stored credentials (leaving headers untouched when no
token is stored). -/
theorem queryPayloads_no_owner_id :
    ∀ (question : String) (options : QueryOptions) (token : String)
      (headers : List (String × String)),
      (askQuestionPayload question options).map Prod.fst =
        ["question", "document_ids", "max_chunks", "temperature"] ∧
      (askQuestionPayload question options).lookup "owner_id" = none ∧
      (searchDocumentsPayload question options).map Prod.fst =
        ["question", "document_ids", "max_chunks"] ∧
      (searchDocumentsPayload question options).lookup "owner_id" = none ∧
      (requestInterceptor (some token) headers).lookup "Authorization" =
        some ("Bearer " ++ token) ∧
      requestInterceptor none headers = headers := by
  intro question options token headers
  exact ⟨rfl, rfl, rfl, rfl, rfl, rfl⟩

/-- C3: A submitted file whose content type is not `application/pdf`, or
whose size exceeds the 50 MB maximum, is rejected with an error message
and no upload request is issued; a PDF of at most the maximum size is
submitted for upload. -/
theorem handleFileUpload_validates :
    ∀ f : JsFile,
      (f.ftype ≠ "application/pdf" →
        handleFileUpload (some f) = .rejected "Please select a PDF file") ∧
      (f.ftype = "application/pdf" → f.size > 50 * 1024 * 1024 →
        handleFileUpload (some f) = .rejected "File size must be less than 50MB") ∧
      (f.ftype = "application/pdf" → f.size ≤ 50 * 1024 * 1024 →
        handleFileUpload (some f) = .upload f) := by
  intro f
  refine ⟨fun h1 => ?_, fun h1 h2 => ?_, fun h1 h2 => ?_⟩
  · simp [handleFileUpload, h1]
  · simp [handleFileUpload, h1, h2]
  · simp [handleFileUpload, h1, Nat.not_lt.mpr h2]

/-- Witness for C3: a plain-text file is rejected, a 50 MB + 1 byte PDF
is rejected, and a 50 MB PDF is uploaded. -/
theorem handleFileUpload_validates_witness :
    handleFileUpload (some ⟨"text/plain", 100⟩) =
      .rejected "Please select a PDF file" ∧
    handleFileUpload (some ⟨"application/pdf", 52428801⟩) =
      .rejected "File size must be less than 50MB" ∧
    handleFileUpload (some ⟨"application/pdf", 52428800⟩) =
      .upload ⟨"application/pdf", 52428800⟩ :=
  ⟨(handleFileUpload_validates ⟨"text/plain", 100⟩).1 (by decide),
   (handleFileUpload_validates ⟨"application/pdf", 52428801⟩).2.1 rfl (by decide),
   (handleFileUpload_validates ⟨"application/pdf", 52428800⟩).2.2 rfl (by decide)⟩

/-- C4: When the ask request fails, the request was indeed issued, the
last message shown is the error message, that message is typed `error`
(not a normal `assistant` answer) and carries no sources, no new
assistant message is introduced by the failed question, and the minimal
AskPage variant likewise shows its fixed error text with empty
references. -/
theorem handleSubmit_failure_error_indication :
    ∀ (s : AskState) (detail : Option String),
      jsTrim s.currentQuestion ≠ "" → s.loading = false →
      (handleSubmit s (.fail detail)).2 = true ∧
      (handleSubmit s (.fail detail)).1.messages.getLast? =
        some (mkErrorMessage detail) ∧
      (mkErrorMessage detail).mtype = MsgType.error ∧
      (mkErrorMessage detail).sources = none ∧
      (∀ m ∈ (handleSubmit s (.fail detail)).1.messages,
        m.mtype = MsgType.assistant → m ∈ s.messages) ∧
      handleAsk (.fail detail) = (some (jstr "Error getting answer."), jarr []) := by
  intro s detail h1 h2
  have hc : ¬ (((jsTrim s.currentQuestion == "") || s.loading) = true) := by
    simp [h1, h2]
  unfold handleSubmit
  rw [if_neg hc]
  dsimp only
  refine ⟨rfl, List.getLast?_concat _, rfl, rfl, ?_, rfl⟩
  intro m hm hassist
  simp only [List.mem_append, List.mem_filter, List.mem_cons,
    List.not_mem_nil, or_false] at hm
  rcases hm with ⟨horig | h | h, hnt⟩ | h
  · exact horig
  · rw [h] at hassist
    exact absurd hassist (by simp [mkUserMessage])
  · rw [h] at hnt
    exact absurd hnt (by simp [thinkingMessage])
  · rw [h] at hassist
    exact absurd hassist (by simp [mkErrorMessage])

/-- Witness for C4: the failing ask on the demo state yields an error
message with no sources and no assistant answer. -/
theorem handleSubmit_failure_error_indication_witness :
    (handleSubmit demoAskState (.fail (some "LLM backend unreachable"))).2 = true ∧
    (handleSubmit demoAskState (.fail (some "LLM backend unreachable"))).1.messages.getLast? =
      some (mkErrorMessage (some "LLM backend unreachable")) ∧
    (mkErrorMessage (some "LLM backend unreachable")).mtype = MsgType.error ∧
    (mkErrorMessage (some "LLM backend unreachable")).sources = none ∧
    (∀ m ∈ (handleSubmit demoAskState (.fail (some "LLM backend unreachable"))).1.messages,
      m.mtype = MsgType.assistant → m ∈ demoAskState.messages) ∧
    handleAsk (.fail (some "LLM backend unreachable")) =
      (some (jstr "Error getting answer."), jarr []) :=
  handleSubmit_failure_error_indication demoAskState
    (some "LLM backend unreachable") (by decide) rfl

/-- C5: When the question is empty or all-whitespace, or a request is
already in flight, `handleSubmit` performs no request and leaves the
state (messages included) unchanged; a request is only issued when the
trimmed question is non-empty. -/
theorem handleSubmit_blank_question_no_request :
    ∀ (s : AskState) (r : AskResult),
      ((jsTrim s.currentQuestion = "" ∨ s.loading = true) →
        handleSubmit s r = (s, false)) ∧
      ((handleSubmit s r).2 = true → jsTrim s.currentQuestion ≠ "") := by
  intro s r
  constructor
  · intro h
    have hc : ((jsTrim s.currentQuestion == "") || s.loading) = true := by
      rcases h with h | h <;> simp [h]
    unfold handleSubmit
    rw [if_pos hc]
  · intro hsent hq
    have hc : ((jsTrim s.currentQuestion == "") || s.loading) = true := by
      simp [hq]
    unfold handleSubmit at hsent
    rw [if_pos hc] at hsent
    exact Bool.false_ne_true hsent

/-- Witness for C5: a whitespace-only question produces no request and
leaves the state untouched. -/
theorem handleSubmit_blank_question_no_request_witness :
    handleSubmit ⟨[], "   ", false, ""⟩ (.fail none) =
      (⟨[], "   ", false, ""⟩, false) :=
  (handleSubmit_blank_question_no_request ⟨[], "   ", false, ""⟩ (.fail none)).1
    (Or.inl (by decide))

/-- Counterexample to C6: on a response whose `answer_text` and `answer`
fields carry distinct values, the chat message displays the `answer`
value — the client does not read the generated text from `answer_text`. -/
theorem askResponse_answer_text_not_read :
    (mkAssistantMessage demoAskResponse).content = some (jstr "a different text") ∧
    getField demoAskResponse "answer_text" = some (jstr "the sprint goal is X") ∧
    (mkAssistantMessage demoAskResponse).content ≠
      getField demoAskResponse "answer_text" := by
  refine ⟨rfl, rfl, ?_⟩
  intro h
  simp [mkAssistantMessage, demoAskResponse, getField, List.lookup] at h

/-- C6 as amended: the client reads the generated text from the response
field `answer` (not `answer_text`), and the provenance, model info and
processing time from `sources`, `model_info` and `processing_time_ms`,
independently of any `answer_text` field. -/
theorem mkAssistantMessage_fields :
    ∀ (a srcs mi pt junk : JVal),
      mkAssistantMessage (jobj [("answer", a), ("sources", srcs),
        ("model_info", mi), ("processing_time_ms", pt),
        ("answer_text", junk)]) =
      { mtype := .assistant, content := some a, sources := some srcs,
        modelInfo := some mi, processingTime := some pt,
        isThinking := false } := by
  intro a srcs mi pt junk
  rfl

/-- Counterexample to C7: on a stats response carrying both the claimed
fields (`total_bytes`, `counts_by_status`) and the fields the code uses
(`total_file_size_mb`, `documents_by_status`) with distinct values, the
dashboard displays the latter — it does not read `total_bytes` or
`counts_by_status`. -/
theorem dashboardStats_claimed_fields_not_read :
    (dashboardStatsView demoStats).storageUsedMB = some (jnum 2) ∧
    getField demoStats "total_bytes" = some (jnum 123456) ∧
    (dashboardStatsView demoStats).storageUsedMB ≠
      getField demoStats "total_bytes" ∧
    (dashboardStatsView demoStats).processed = jnum 1 ∧
    getFieldOpt (getField demoStats "counts_by_status") "completed" =
      some (jnum 7) ∧
    (dashboardStatsView demoStats).processed ≠ jnum 7 := by
  refine ⟨?_, rfl, ?_, ?_, rfl, ?_⟩
  · simp [dashboardStatsView, demoStats, getField, getFieldOpt, jsOr,
      truthy, List.lookup]
  · simp [dashboardStatsView, demoStats, getField, getFieldOpt, jsOr,
      truthy, List.lookup]
  · simp [dashboardStatsView, demoStats, getField, getFieldOpt, jsOr,
      truthy, List.lookup]
  · simp [dashboardStatsView, demoStats, getField, getFieldOpt, jsOr,
      truthy, List.lookup]

/-- C7 as amended: the dashboard reads `total_documents` and
`total_chunks` from fields of those names, the storage figure from
`total_file_size_mb` (not `total_bytes`), and the processed count from
`documents_by_status.completed` (not `counts_by_status`), defaulting to
0 via `|| 0`. -/
theorem dashboardStatsView_fields :
    ∀ (td tc mb comp : ℚ) (junkBytes junkCounts : JVal),
      dashboardStatsView (jobj [
        ("total_documents", jnum td),
        ("total_chunks", jnum tc),
        ("total_bytes", junkBytes),
        ("counts_by_status", junkCounts),
        ("total_file_size_mb", jnum mb),
        ("documents_by_status", jobj [("completed", jnum comp)])]) =
      { totalDocuments := some (jnum td), storageUsedMB := some (jnum mb),
        textChunks := some (jnum tc), processed := jnum comp } := by
  intro td tc mb comp junkBytes junkCounts
  by_cases hcomp : comp = 0 <;>
    simp [dashboardStatsView, getField, getFieldOpt, jsOr, truthy,
      List.lookup, hcomp]

/-- Counterexample to C8: on a health response in which
`generation_service`, `vector_index` and `chunk_count` all indicate a
reachable service, the System Status panel still shows the LLM and
vector indicators red — it reads `llm_service.available` and
`vector_store.total_chunks`, not the claimed fields. -/
theorem dashboardHealth_claimed_fields_not_read :
    truthy (getField demoHealth "generation_service") = true ∧
    truthy (getField demoHealth "vector_index") = true ∧
    getField demoHealth "chunk_count" = some (jnum 3) ∧
    (dashboardHealthView demoHealth).embeddingOk = true ∧
    (dashboardHealthView demoHealth).llmOk = false ∧
    (dashboardHealthView demoHealth).vectorOk = false := by
  refine ⟨rfl, rfl, rfl, rfl, rfl, rfl⟩

/-- C8 as amended: the System Status panel reads the embedding indicator
from `embedding_service.working`, the LLM indicator from
`llm_service.available` (not `generation_service`), and the vector-index
indicator from `vector_store.total_chunks >= 0` (not `vector_index` or
`chunk_count`), independently of a `generation_service` field. -/
theorem dashboardHealthView_fields :
    ∀ (w a : Bool) (n : ℚ) (junk : JVal),
      dashboardHealthView (jobj [
        ("embedding_service", jobj [("working", jbool w)]),
        ("llm_service", jobj [("available", jbool a)]),
        ("vector_store", jobj [("total_chunks", jnum n)]),
        ("generation_service", junk)]) =
      { embeddingOk := w, llmOk := a, vectorOk := decide (0 ≤ n) } := by
  intro w a n junk
  rfl

/-- Defaulting by `||` never yields 0 when the default is non-zero. -/
theorem jsOrQ_ne_zero (a : Option ℚ) (d : ℚ) (hd : d ≠ 0) : jsOrQ a d ≠ 0 := by
  cases a with
  | none => exact hd
  | some x => by_cases hx : x = 0 <;> simp [jsOrQ, hx, hd]

/-- C9: `askQuestion` and `searchDocuments` replace a falsy `maxChunks`
(0 or absent) with the defaults 5 and 10, and a falsy `temperature`
(0 or absent) with 0.7, because defaulting uses `||`; consequently no
payload built through this interface carries `max_chunks` 0 or
`temperature` 0. -/
theorem queryPayload_falsy_defaults :
    ∀ (q : String) (dids : Option JVal) (mc t : Option ℚ),
      (askQuestionPayload q ⟨dids, some 0, t⟩).lookup "max_chunks" =
        some (some (jnum 5)) ∧
      (askQuestionPayload q ⟨dids, none, t⟩).lookup "max_chunks" =
        some (some (jnum 5)) ∧
      (askQuestionPayload q ⟨dids, mc, some 0⟩).lookup "temperature" =
        some (some (jnum (7/10))) ∧
      (askQuestionPayload q ⟨dids, mc, none⟩).lookup "temperature" =
        some (some (jnum (7/10))) ∧
      (searchDocumentsPayload q ⟨dids, some 0, t⟩).lookup "max_chunks" =
        some (some (jnum 10)) ∧
      (searchDocumentsPayload q ⟨dids, none, t⟩).lookup "max_chunks" =
        some (some (jnum 10)) ∧
      (askQuestionPayload q ⟨dids, mc, t⟩).lookup "max_chunks" ≠
        some (some (jnum 0)) ∧
      (askQuestionPayload q ⟨dids, mc, t⟩).lookup "temperature" ≠
        some (some (jnum 0)) ∧
      (searchDocumentsPayload q ⟨dids, mc, t⟩).lookup "max_chunks" ≠
        some (some (jnum 0)) := by
  intro q dids mc t
  refine ⟨rfl, rfl, rfl, rfl, rfl, rfl, ?_, ?_, ?_⟩
  · show some (some (jnum (jsOrQ mc 5))) ≠ some (some (jnum 0))
    simp only [ne_eq, Option.some.injEq, JVal.jnum.injEq]
    exact jsOrQ_ne_zero mc 5 (by norm_num)
  · show some (some (jnum (jsOrQ t (7/10)))) ≠ some (some (jnum 0))
    simp only [ne_eq, Option.some.injEq, JVal.jnum.injEq]
    exact jsOrQ_ne_zero t (7/10) (by norm_num)
  · show some (some (jnum (jsOrQ mc 10))) ≠ some (some (jnum 0))
    simp only [ne_eq, Option.some.injEq, JVal.jnum.injEq]
    exact jsOrQ_ne_zero mc 10 (by norm_num)

/-- Witness for C9: a caller requesting `maxChunks = 0` with no
temperature gets `max_chunks` 5 and cannot obtain `temperature` 0. -/
theorem queryPayload_falsy_defaults_witness :
    (askQuestionPayload "What is the sprint goal?"
        ⟨none, some 0, none⟩).lookup "max_chunks" = some (some (jnum 5)) ∧
    (askQuestionPayload "What is the sprint goal?"
        ⟨none, some 0, none⟩).lookup "temperature" ≠ some (some (jnum 0)) :=
  ⟨(queryPayload_falsy_defaults "What is the sprint goal?" none (some 0) none).1,
   (queryPayload_falsy_defaults "What is the sprint goal?" none (some 0)
      none).2.2.2.2.2.2.2.1⟩

/-- C10: A 401 response makes the interceptor clear `authToken` and
`userData` from localStorage and navigate to `/login`, and the error is
still propagated; any other status (or a response-less error) leaves the
stored credentials and location unchanged, the error again propagated. -/
theorem responseInterceptor_auth_handling :
    ∀ (status : Option Nat) (st : BrowserState),
      (status = some 401 →
        responseInterceptor status st =
          ({ authToken := none, userData := none, location := "/login" }, true)) ∧
      (status ≠ some 401 → responseInterceptor status st = (st, true)) := by
  intro status st
  constructor <;> intro h <;> simp [responseInterceptor, h]

/-- Witness for C10: a 401 clears the stored session of a logged-in
browser and redirects; a 500 leaves it untouched. -/
theorem responseInterceptor_auth_handling_witness :
    responseInterceptor (some 401) ⟨some "tok", some "user", "/dashboard"⟩ =
      ({ authToken := none, userData := none, location := "/login" }, true) ∧
    responseInterceptor (some 500) ⟨some "tok", some "user", "/dashboard"⟩ =
      (⟨some "tok", some "user", "/dashboard"⟩, true) :=
  ⟨(responseInterceptor_auth_handling (some 401)
      ⟨some "tok", some "user", "/dashboard"⟩).1 rfl,
   (responseInterceptor_auth_handling (some 500)
      ⟨some "tok", some "user", "/dashboard"⟩).2 (by decide)⟩

end Chatbot
